import Mathlib

/-!
Shallow embedding of `pushover/__init__.py` (nythepegasus/pushover-client).

The module defines two payload builders (`Message`, `Glance`), module-level
constant lists (`SOUNDS`, `PRIORITIES`, `ATTACHMENT_TYPES`) and a transport
`Client`.  Python strings are modelled as Lean `String`, Python `int` as `Int`,
Python `float` as `Rat`, and `None`-able parameters as `Option`.  Python slice
truncation `s[0:n]` is `strTake`.  Raised exceptions become `Except PyError`.
The file system (for `open` and `mimetypes.guess_type`) and the HTTP layer
(`requests.post` / `requests.get`) are abstracted as explicit function
parameters, so every definition stays executable.
-/

/-- Exceptions raised by the Python code at construction / call time. -/
inductive PyError
  | valueError (msg : String)
  | fileNotFoundError (msg : String)
deriving DecidableEq, Repr

/-- Dynamic values as they appear in the serialized field mappings
(`Message.json` / `Glance.json` build dicts whose values are str, int or
float; `None` is included for completeness of the filter semantics). -/
inductive PyVal
  | str (s : String)
  | int (i : Int)
  | float (q : Rat)
  | none
deriving DecidableEq, Repr

/-- Python `v != ""` on a dynamic value: only a string compares equal to the
empty string; ints, floats and None are never equal to `""`. -/
def PyVal.neqEmptyStr : PyVal → Bool
  | .str s => s ≠ ""
  | _ => true

/-- Python `v is not None`. -/
def PyVal.isNotNone : PyVal → Bool
  | .none => false
  | _ => true

/-- Python `v != 0` (numeric zero; a str or None never equals 0). -/
def PyVal.neqZero : PyVal → Bool
  | .int i => i ≠ 0
  | .float q => q ≠ 0
  | .str _ => true
  | .none => true

/-- A numeric Python value: `int` or `float`.  Used for the dynamically
typed `count` / `percent` parameters of `Glance.__init__`, whose
`isinstance(_, int)` checks distinguish the two. -/
inductive PyNum
  | int (i : Int)
  | float (q : Rat)
deriving DecidableEq, Repr

/-- Python `isinstance(x, int)`. -/
def PyNum.isInt : PyNum → Bool
  | .int _ => true
  | .float _ => false

/-- Numeric value of a `PyNum`, for order comparisons (`0 <= x <= 100`). -/
def PyNum.toRat : PyNum → Rat
  | .int i => (i : Rat)
  | .float q => q

/-- Inject a `PyNum` into `PyVal` (how `count` / `percent` appear in a dict). -/
def PyNum.toVal : PyNum → PyVal
  | .int i => .int i
  | .float q => .float q

/-- Python slice `s[0:n]` on a string: the first `n` characters. -/
def strTake (s : String) (n : Nat) : String := ⟨s.data.take n⟩

/-- Module constant `SOUNDS` (lines 5-29 of the source). -/
def SOUNDS : List String :=
  ["pushover", "bike", "bugle", "cashregister", "classical", "cosmic",
   "falling", "gamelan", "incoming", "intermission", "magic", "mechanic",
   "pianobar", "siren", "spacealarm", "tugboat", "alien", "climb",
   "persistent", "echo", "updown", "vibrate", "none"]

/-- Module constant `PRIORITIES` (lines 31-37). -/
def PRIORITIES : List Int := [-2, -1, 0, 1, 2]

/-- Module constant `ATTACHMENT_TYPES` (lines 39-42). -/
def ATTACHMENT_TYPES : List String := ["image/jpeg", "image/png"]

/-- Python `self._mime_test not in ATTACHMENT_TYPES`, negated:
`mimetypes.guess_type` returns `None` (here `Option.none`) for an unknown
extension, and `None` is not a member of `ATTACHMENT_TYPES`. -/
def mimeOk (mt : Option String) : Bool :=
  match mt with
  | some t => ATTACHMENT_TYPES.contains t
  | none => false

/-- The state of a constructed `Message` object: the attributes set by
`Message.__init__` (lines 107-119).  `attachment` is the stored
`_attachment` string; `mimeTest` is `_mime_test`, set only when a non-empty
attachment was checked (`none` models the attribute being absent).
`response_data` is tracked separately by the client model (it is `None`
until a send). -/
structure Message where
  message : String
  title : String
  attachment : String
  mimeTest : Option String
  device : String
  url : String
  url_title : String
  priority : Int
  sound : String
  timestamp : Rat
  retry : Int
  expire : Int
deriving DecidableEq, Repr

/-- `Message.__init__` (lines 50-119).  `existsFile` abstracts whether
`open(path)` succeeds; `guessType` abstracts `mimetypes.guess_type(path)[0]`.
Order of effects as in the source: the `message is None` check, then the
attachment existence / MIME checks, then the truncating assignments. -/
def Message.mk' (existsFile : String → Bool) (guessType : String → Option String)
    (message : Option String) (title attachment device url url_title : String)
    (priority : Int) (sound : String) (timestamp : Rat) (retry expire : Int) :
    Except PyError Message :=
  match message with
  | none => .error (.valueError "'message' cannot be None!")
  | some m =>
    if attachment ≠ "" then
      if existsFile attachment then
        let mt := guessType attachment
        if mimeOk mt then
          .ok ⟨strTake m 4096, strTake title 250, attachment, mt, device,
               strTake url 512, strTake url_title 100, priority, sound,
               timestamp, retry, expire⟩
        else
          .error (.valueError "Attachment file must be valid jpeg/png image!")
      else
        .error (.fileNotFoundError "Must input a valid file!")
    else
      .ok ⟨strTake m 4096, strTake title 250, attachment, none, device,
           strTake url 512, strTake url_title 100, priority, sound,
           timestamp, retry, expire⟩

/-- The unfiltered tuple of `(key, value)` pairs from `Message.json`
(lines 128-133), in source order. -/
def Message.jsonEntries (m : Message) : List (String × PyVal) :=
  [("message", .str m.message), ("title", .str m.title),
   ("device", .str m.device), ("url", .str m.url),
   ("url_title", .str m.url_title), ("priority", .int m.priority),
   ("sound", .str m.sound), ("timestamp", .float m.timestamp),
   ("retry", .int m.retry), ("expire", .int m.expire)]

/-- Property `Message.json`: the dict comprehension keeps a pair iff
`v != ""`. -/
def Message.json (m : Message) : List (String × PyVal) :=
  m.jsonEntries.filter (fun kv => kv.2.neqEmptyStr)

/-- Property `Message.attachment` (lines 121-126): a files dict
`(path, open file, mime)` when `_attachment` is non-empty, else `""`.
Modelled as `some (path, mime)` / `none`. -/
def Message.attachmentFiles (m : Message) : Option (String × Option String) :=
  if m.attachment ≠ "" then some (m.attachment, m.mimeTest) else none

/-- The state of a constructed `Glance` object (lines 164-180).  `count` and
`percent` keep their dynamic type: a `float` percent such as `50.5` passes
the (buggy) check and is stored as a float. -/
structure Glance where
  title : String
  text : String
  subtext : String
  count : PyNum
  percent : PyNum
deriving DecidableEq, Repr

/-- `Glance.__init__` (lines 141-180).  The three text fields default to the
empty string and are truncated to 100 characters only when the argument is a
string (`isinstance(_, str)`).  The `count` check raises unless `count` is an
int.  The `percent` check is the source's literal condition
`not isinstance(percent, int) and not 0 <= percent <= 100`. -/
def Glance.mk' (title text subtext : Option String) (count percent : PyNum) :
    Except PyError Glance :=
  let t := match text with | some s => strTake s 100 | none => ""
  let ti := match title with | some s => strTake s 100 | none => ""
  let st := match subtext with | some s => strTake s 100 | none => ""
  if count.isInt = false then
    .error (.valueError "'count' must be an integer!")
  else if percent.isInt = false ∧ ¬ (0 ≤ percent.toRat ∧ percent.toRat ≤ 100) then
    .error (.valueError "'percent' must be an integer between 0 and 100!")
  else
    .ok ⟨ti, t, st, count, percent⟩

/-- The unfiltered tuple of `(key, value)` pairs from `Glance.json`
(lines 182-186), in source order. -/
def Glance.jsonEntries (g : Glance) : List (String × PyVal) :=
  [("title", .str g.title), ("text", .str g.text),
   ("subtext", .str g.subtext), ("count", g.count.toVal),
   ("percent", g.percent.toVal)]

/-- Property `Glance.json`: keeps a pair iff `v is not None or v != 0`. -/
def Glance.json (g : Glance) : List (String × PyVal) :=
  g.jsonEntries.filter (fun kv => kv.2.isNotNone || kv.2.neqZero)

/-- A payload acceptable to `Client.send`: a `Message` or a `Glance`. -/
inductive Payload
  | message (m : Message)
  | glance (g : Glance)
deriving DecidableEq, Repr

/-- `msg.json` on either payload kind. -/
def Payload.json : Payload → List (String × PyVal)
  | .message m => m.json
  | .glance g => g.json

/-- `msg._api_callback`: `"messages.json"` for a Message (line 119),
`"glances.json"` for a Glance (line 179). -/
def Payload.apiCallback : Payload → String
  | .message _ => "messages.json"
  | .glance _ => "glances.json"

/-- `getattr(msg, "attachment", "")` in `Client.send` (line 256): the
`attachment` property of a Message, or the default `""` for a Glance
(modelled as `none`). -/
def Payload.files : Payload → Option (String × Option String)
  | .message m => m.attachmentFiles
  | .glance _ => none

/-- Python `dict.update`: keys already in `d` keep their position and take
the value from `u`; keys of `u` not in `d` are appended in `u` order. -/
def dictLookup (u : List (String × PyVal)) (k : String) : Option PyVal :=
  match u with
  | [] => none
  | kv :: rest => if kv.1 = k then some kv.2 else dictLookup rest k

/-- `d.update(u)` on insertion-ordered dicts modelled as assoc lists. -/
def dictUpdate (d u : List (String × PyVal)) : List (String × PyVal) :=
  (d.map (fun kv =>
    match dictLookup u kv.1 with
    | some v => (kv.1, v)
    | none => kv)) ++
  u.filter (fun kv => !(d.map Prod.fst).contains kv.1)

/-- `Client._api_url` (line 214). -/
def apiUrl : String := "https://api.pushover.net/1/"

/-- A payload after a send: `Client.send` assigns the raw response to
`msg.response_data` (line 261) before storing it in `last_message`. -/
structure Sent (ρ : Type) where
  payload : Payload
  response_data : ρ
deriving DecidableEq, Repr

/-- The state of a `Client` object (lines 194-218), parametric in the
response type `ρ` of the HTTP layer. -/
structure Client (ρ : Type) where
  user_key : String
  api_token : String
  last_message : Option (Sent ρ)
deriving DecidableEq, Repr

/-- `Client.__init__`: stores credentials, `last_message = None`. -/
def Client.init (ρ : Type) (user_key api_token : String) : Client ρ :=
  ⟨user_key, api_token, none⟩

/-- An outbound POST as built by `Client.send`: target URL, form data, and
the optional multipart files argument. -/
structure HttpRequest where
  url : String
  data : List (String × PyVal)
  files : Option (String × Option String)
deriving DecidableEq, Repr

/-- The result of `Client.send`: the request that was posted, the raw
response, the payload with its `response_data` attached, and the updated
client state. -/
structure SendResult (ρ : Type) where
  req : HttpRequest
  resp : ρ
  sent : Sent ρ
  client : Client ρ
deriving DecidableEq, Repr

/-- `Client.send` (lines 243-263): build
`data = {"token": ..., "user": ...}`, `data.update(msg.json)`, POST to the
payload's callback URL (with `files` when the payload has an attachment),
assign `msg.response_data = r`, set `self.last_message = msg`, return `r`.
The HTTP layer is the function argument `http`. -/
def Client.send {ρ : Type} (http : HttpRequest → ρ) (c : Client ρ)
    (msg : Payload) : SendResult ρ :=
  let data := dictUpdate
    [("token", .str c.api_token), ("user", .str c.user_key)] msg.json
  let req : HttpRequest :=
    ⟨apiUrl ++ msg.apiCallback, data, msg.files⟩
  let r := http req
  let sentMsg : Sent ρ := ⟨msg, r⟩
  ⟨req, r, sentMsg, { c with last_message := some sentMsg }⟩

/-- An outbound GET as built by `Client.get_receipt`: target URL and query
parameters. -/
structure GetRequest where
  url : String
  params : List (String × PyVal)
deriving DecidableEq, Repr

/-- `Client.get_receipt` (lines 265-287): with no explicit receipt id it
requires `last_message` (raising `ValueError` when absent) and reads the
receipt id from the last response via `receiptOf` (abstracting
`response_data.json()["receipt"]`).  The result lists the GET requests
actually issued (empty on the error path, where the source raises before
any `requests.get`). -/
def Client.get_receipt {ρ : Type} (receiptOf : ρ → String)
    (httpGet : GetRequest → ρ) (c : Client ρ) (receipt : Option String) :
    List GetRequest × Except PyError ρ :=
  match receipt with
  | none =>
    match c.last_message with
    | none => ([], .error (.valueError "No last message, please provide receipt!"))
    | some lm =>
      let req : GetRequest :=
        ⟨apiUrl ++ "receipts/" ++ receiptOf lm.response_data ++ ".json",
         [("token", .str c.api_token)]⟩
      ([req], .ok (httpGet req))
  | some rc =>
    let req : GetRequest :=
      ⟨apiUrl ++ "receipts/" ++ rc ++ ".json", [("token", .str c.api_token)]⟩
    ([req], .ok (httpGet req))

/-! ## Helper lemmas -/

/-- Length after Python slice truncation. -/
lemma strTake_length (s : String) (n : Nat) : (strTake s n).length = min n s.length := by
  show (s.data.take n).length = min n s.data.length
  exact List.length_take n s.data

/-- A slice `s[0:n]` never exceeds `n` characters. -/
lemma strTake_length_le (s : String) (n : Nat) : (strTake s n).length ≤ n := by
  rw [strTake_length]
  exact min_le_left n s.length

/-- Shape of every successful `Message` construction: the message was not
`None` and every stored string field is the truncated input. -/
lemma Message.mk'_ok_shape (existsFile : String → Bool)
    (guessType : String → Option String) (mo : Option String)
    (title attachment device url url_title : String) (priority : Int)
    (sound : String) (timestamp : Rat) (retry expire : Int) (msg : Message)
    (h : Message.mk' existsFile guessType mo title attachment device url
          url_title priority sound timestamp retry expire = Except.ok msg) :
    ∃ m mt, mo = some m ∧
      msg = ⟨strTake m 4096, strTake title 250, attachment, mt, device,
             strTake url 512, strTake url_title 100, priority, sound,
             timestamp, retry, expire⟩ := by
  cases mo with
  | none => simp [Message.mk'] at h
  | some m =>
    simp only [Message.mk'] at h
    split_ifs at h with h1 h2 h3 <;>
      first
        | exact ⟨m, guessType attachment, rfl, (Except.ok.inj h).symm⟩
        | exact ⟨m, none, rfl, (Except.ok.inj h).symm⟩

/-- No key of a serialized payload mapping collides with the credential
keys `"token"` / `"user"`. -/
lemma Payload.json_key_ne_cred (msg : Payload) :
    ∀ kv ∈ msg.json, kv.1 ≠ "token" ∧ kv.1 ≠ "user" := by
  intro kv hmem
  cases msg with
  | message m =>
    obtain ⟨h, -⟩ := List.mem_filter.mp hmem
    fin_cases h <;> exact ⟨by simp, by simp⟩
  | glance g =>
    obtain ⟨h, -⟩ := List.mem_filter.mp hmem
    fin_cases h <;> exact ⟨by simp, by simp⟩

/-- `dictLookup` misses when no key matches. -/
lemma dictLookup_eq_none (u : List (String × PyVal)) (k : String)
    (h : ∀ kv ∈ u, kv.1 ≠ k) : dictLookup u k = none := by
  induction u with
  | nil => rfl
  | cons kv rest ih =>
    unfold dictLookup
    rw [if_neg (h kv (List.mem_cons_self kv rest))]
    exact ih (fun kv' h' => h kv' (List.mem_cons_of_mem kv h'))

/-- `{"token": t, "user": u}.update(msg.json)` is plain concatenation,
because the payload keys never collide with the credential keys. -/
lemma dictUpdate_creds (t u : String) (msg : Payload) :
    dictUpdate [("token", .str t), ("user", .str u)] msg.json =
      [("token", .str t), ("user", .str u)] ++ msg.json := by
  have h1 : dictLookup msg.json "token" = none :=
    dictLookup_eq_none msg.json "token"
      (fun kv h => (Payload.json_key_ne_cred msg kv h).1)
  have h2 : dictLookup msg.json "user" = none :=
    dictLookup_eq_none msg.json "user"
      (fun kv h => (Payload.json_key_ne_cred msg kv h).2)
  have h3 : msg.json.filter
      (fun kv => !(["token", "user"] : List String).contains kv.1) = msg.json := by
    refine List.filter_eq_self.mpr ?_
    intro kv h
    obtain ⟨n1, n2⟩ := Payload.json_key_ne_cred msg kv h
    simp [n1, n2]
  simp only [dictUpdate, List.map_cons, List.map_nil, h1, h2]
  rw [h3]

/-! ## Claim theorems -/

/-- C1: every successfully constructed `Message` stores the exact
truncations of its string inputs — `message` to its first 4096 characters,
`title` to 250, `url` to 512, `url_title` to 100 — so the stored fields
always satisfy those length bounds. -/
theorem C1_truncation (existsFile : String → Bool)
    (guessType : String → Option String) (mo : Option String)
    (title attachment device url url_title : String) (priority : Int)
    (sound : String) (timestamp : Rat) (retry expire : Int) (msg : Message)
    (h : Message.mk' existsFile guessType mo title attachment device url
          url_title priority sound timestamp retry expire = Except.ok msg) :
    (∃ m, mo = some m ∧ msg.message = strTake m 4096) ∧
    msg.title = strTake title 250 ∧
    msg.url = strTake url 512 ∧
    msg.url_title = strTake url_title 100 ∧
    msg.message.length ≤ 4096 ∧ msg.title.length ≤ 250 ∧
    msg.url.length ≤ 512 ∧ msg.url_title.length ≤ 100 := by
  obtain ⟨m, mt, rfl, rfl⟩ := Message.mk'_ok_shape existsFile guessType mo
    title attachment device url url_title priority sound timestamp retry
    expire msg h
  exact ⟨⟨m, rfl, rfl⟩, rfl, rfl, rfl, strTake_length_le m 4096,
    strTake_length_le title 250, strTake_length_le url 512,
    strTake_length_le url_title 100⟩

/-- Witness for C1 at a concrete construction. -/
theorem C1_truncation_witness :
    (∃ m, (some "hello" : Option String) = some m ∧
      (⟨"hello", "t", "", none, "", "", "", 0, "pushover", 0, 30, 10800⟩ :
        Message).message = strTake m 4096) ∧
    (⟨"hello", "t", "", none, "", "", "", 0, "pushover", 0, 30, 10800⟩ :
      Message).title = strTake "t" 250 ∧
    (⟨"hello", "t", "", none, "", "", "", 0, "pushover", 0, 30, 10800⟩ :
      Message).url = strTake "" 512 ∧
    (⟨"hello", "t", "", none, "", "", "", 0, "pushover", 0, 30, 10800⟩ :
      Message).url_title = strTake "" 100 ∧
    (⟨"hello", "t", "", none, "", "", "", 0, "pushover", 0, 30, 10800⟩ :
      Message).message.length ≤ 4096 ∧
    (⟨"hello", "t", "", none, "", "", "", 0, "pushover", 0, 30, 10800⟩ :
      Message).title.length ≤ 250 ∧
    (⟨"hello", "t", "", none, "", "", "", 0, "pushover", 0, 30, 10800⟩ :
      Message).url.length ≤ 512 ∧
    (⟨"hello", "t", "", none, "", "", "", 0, "pushover", 0, 30, 10800⟩ :
      Message).url_title.length ≤ 100 :=
  C1_truncation (fun _ => false) (fun _ => none) (some "hello") "t" "" ""
    "" "" 0 "pushover" 0 30 10800
    ⟨"hello", "t", "", none, "", "", "", 0, "pushover", 0, 30, 10800⟩ rfl

/-- C2: the code accepts an integer `percent` of 150 (outside `[0,100]`)
without raising, storing it unchanged — the source's check
`not isinstance(percent, int) and not 0 <= percent <= 100` cannot fire for
an int, contradicting the claimed invalid-argument failure. -/
theorem C2_percent_out_of_range_accepted :
    Glance.mk' none none none (.int 0) (.int 150) =
      Except.ok ⟨"", "", "", .int 0, .int 150⟩ ∧
    Glance.mk' none none none (.int 0) (.int (-5)) =
      Except.ok ⟨"", "", "", .int 0, .int (-5)⟩ := ⟨rfl, rfl⟩

/-- C3 counterexample: a `Message` constructed with priority 0 and
timestamp 0 serializes with both keys present (`0 != ""` holds in Python),
and a `Glance` with all-empty optional fields serializes with every key
present, empty strings and zeros included — refuting that falsy/zero
values are omitted. -/
theorem C3_counterexample :
    Message.mk' (fun _ => false) (fun _ => none) (some "test") "" "" "" ""
        "" 0 "pushover" 0 30 10800 =
      Except.ok ⟨"test", "", "", none, "", "", "", 0, "pushover", 0, 30, 10800⟩ ∧
    ("priority", PyVal.int 0) ∈
      Message.json ⟨"test", "", "", none, "", "", "", 0, "pushover", 0, 30, 10800⟩ ∧
    ("timestamp", PyVal.float 0) ∈
      Message.json ⟨"test", "", "", none, "", "", "", 0, "pushover", 0, 30, 10800⟩ ∧
    Glance.mk' none none none (.int 0) (.int 0) =
      Except.ok ⟨"", "", "", .int 0, .int 0⟩ ∧
    Glance.json ⟨"", "", "", .int 0, .int 0⟩ =
      [("title", .str ""), ("text", .str ""), ("subtext", .str ""),
       ("count", .int 0), ("percent", .int 0)] :=
  ⟨rfl, by decide, by decide, rfl, rfl⟩

/-- C3 amended: `Message.json` omits exactly the entries whose value is the
empty string — the numeric fields `priority`, `timestamp`, `retry`,
`expire` are always present, a literal 0 included — and `Glance.json`
omits nothing (its filter `v is not None or v != 0` is a tautology); a
`Message` with every optional string field empty therefore serializes to
exactly the keys message, priority, sound, timestamp, retry, expire. -/
theorem C3_json_filter_semantics :
    (∀ msg : Message,
      ("priority", PyVal.int msg.priority) ∈ msg.json ∧
      ("timestamp", PyVal.float msg.timestamp) ∈ msg.json ∧
      ("retry", PyVal.int msg.retry) ∈ msg.json ∧
      ("expire", PyVal.int msg.expire) ∈ msg.json ∧
      msg.json.all (fun kv => kv.2.neqEmptyStr) = true) ∧
    (∀ g : Glance,
      g.json = [("title", .str g.title), ("text", .str g.text),
        ("subtext", .str g.subtext), ("count", g.count.toVal),
        ("percent", g.percent.toVal)]) ∧
    (Message.json ⟨"test", "", "", none, "", "", "", 0, "pushover", 0, 30,
        10800⟩).map Prod.fst =
      ["message", "priority", "sound", "timestamp", "retry", "expire"] := by
  refine ⟨?_, ?_, rfl⟩
  · intro msg
    refine ⟨?_, ?_, ?_, ?_,
      List.all_eq_true.mpr (fun kv h => (List.mem_filter.mp h).2)⟩ <;>
      simp [Message.json, Message.jsonEntries, List.mem_filter, PyVal.neqEmptyStr]
  · intro g
    cases g with
    | mk t tx st c p =>
      simp only [Glance.json, Glance.jsonEntries, PyVal.isNotNone,
        PyVal.neqZero, List.filter]
      cases c <;> cases p <;> rfl

/-- C4: `Client.send` posts the credential fields merged with the
payload's serialized fields to the payload's endpoint, attaches the raw
response to the payload, overwrites the client's `last_message` slot with
that payload, leaves the credentials unchanged, and returns that same
response. -/
theorem C4_send_semantics {ρ : Type} (http : HttpRequest → ρ) (c : Client ρ)
    (msg : Payload) :
    (c.send http msg).req.data =
      [("token", PyVal.str c.api_token), ("user", PyVal.str c.user_key)] ++
        msg.json ∧
    (c.send http msg).req.url = apiUrl ++ msg.apiCallback ∧
    (c.send http msg).req.files = msg.files ∧
    (c.send http msg).sent.payload = msg ∧
    (c.send http msg).sent.response_data = (c.send http msg).resp ∧
    (c.send http msg).client.last_message = some (c.send http msg).sent ∧
    (c.send http msg).client.user_key = c.user_key ∧
    (c.send http msg).client.api_token = c.api_token ∧
    (c.send http msg).resp = http (c.send http msg).req :=
  ⟨dictUpdate_creds c.api_token c.user_key msg, rfl, rfl, rfl, rfl, rfl,
   rfl, rfl, rfl⟩

/-- C5: `Client.get_receipt` with no explicit receipt id on a client whose
`last_message` slot is empty raises `ValueError` and issues no GET
request. -/
theorem C5_get_receipt_no_last {ρ : Type} (receiptOf : ρ → String)
    (httpGet : GetRequest → ρ) (c : Client ρ)
    (h : c.last_message = none) :
    Client.get_receipt receiptOf httpGet c none =
      ([], Except.error
        (PyError.valueError "No last message, please provide receipt!")) := by
  unfold Client.get_receipt
  rw [h]

/-- Witness for C5 on a freshly constructed client. -/
theorem C5_get_receipt_no_last_witness :
    (Client.init Unit "user-key" "app-token").last_message = none ∧
    Client.get_receipt (fun _ => "") (fun _ => ())
        (Client.init Unit "user-key" "app-token") none =
      ([], Except.error
        (PyError.valueError "No last message, please provide receipt!")) :=
  ⟨rfl, C5_get_receipt_no_last (fun _ => "") (fun _ => ())
    (Client.init Unit "user-key" "app-token") rfl⟩

/-- C6: constructing a `Message` with a non-empty attachment path whose
file cannot be opened fails (`FileNotFoundError`, the construction-time
invalid-argument condition of the spec's taxonomy) and produces no
instance; with a `None` message it likewise fails before any instance is
produced. -/
theorem C6_attachment_missing_file (existsFile : String → Bool)
    (guessType : String → Option String) (m : String)
    (title attachment device url url_title : String) (priority : Int)
    (sound : String) (timestamp : Rat) (retry expire : Int)
    (hatt : attachment ≠ "") (hex : existsFile attachment = false) :
    Message.mk' existsFile guessType (some m) title attachment device url
        url_title priority sound timestamp retry expire =
      Except.error (PyError.fileNotFoundError "Must input a valid file!") ∧
    Message.mk' existsFile guessType none title attachment device url
        url_title priority sound timestamp retry expire =
      Except.error (PyError.valueError "'message' cannot be None!") := by
  constructor
  · simp only [Message.mk']
    rw [if_pos hatt, if_neg (by simp [hex])]
  · rfl

/-- Witness for C6 with a concrete missing file. -/
theorem C6_attachment_missing_file_witness :
    Message.mk' (fun _ => false) (fun _ => some "image/png") (some "hi")
        "" "missing.png" "" "" "" 0 "pushover" 0 30 10800 =
      Except.error (PyError.fileNotFoundError "Must input a valid file!") ∧
    Message.mk' (fun _ => false) (fun _ => some "image/png") none
        "" "missing.png" "" "" "" 0 "pushover" 0 30 10800 =
      Except.error (PyError.valueError "'message' cannot be None!") :=
  C6_attachment_missing_file (fun _ => false) (fun _ => some "image/png")
    "hi" "" "missing.png" "" "" "" 0 "pushover" 0 30 10800
    (by decide) rfl

/-- C7: constructing a `Message` with an existing attachment whose guessed
MIME type is not in `ATTACHMENT_TYPES` (neither `image/jpeg` nor
`image/png`, including an unguessable type) raises `ValueError` and
produces no instance. -/
theorem C7_attachment_bad_mime (existsFile : String → Bool)
    (guessType : String → Option String) (m : String)
    (title attachment device url url_title : String) (priority : Int)
    (sound : String) (timestamp : Rat) (retry expire : Int)
    (hatt : attachment ≠ "") (hex : existsFile attachment = true)
    (hm : mimeOk (guessType attachment) = false) :
    Message.mk' existsFile guessType (some m) title attachment device url
        url_title priority sound timestamp retry expire =
      Except.error
        (PyError.valueError "Attachment file must be valid jpeg/png image!") := by
  simp only [Message.mk']
  rw [if_pos hatt, if_pos (by simp [hex]), if_neg (by simp [hm])]

/-- Witness for C7 with a gif attachment. -/
theorem C7_attachment_bad_mime_witness :
    mimeOk ((fun _ => some "image/gif") "pic.gif") = false ∧
    Message.mk' (fun _ => true) (fun _ => some "image/gif") (some "hi")
        "" "pic.gif" "" "" "" 0 "pushover" 0 30 10800 =
      Except.error
        (PyError.valueError "Attachment file must be valid jpeg/png image!") :=
  ⟨rfl, C7_attachment_bad_mime (fun _ => true) (fun _ => some "image/gif")
    "hi" "" "pic.gif" "" "" "" 0 "pushover" 0 30 10800
    (by decide) rfl rfl⟩

/-- C8: with no attachment, `Message` construction succeeds for every
integer priority and every sound string — including priority 99, which is
not in `PRIORITIES`, and a sound not in `SOUNDS` — and stores both
unchanged; the enumerations are never consulted. -/
theorem C8_priority_sound_unvalidated (existsFile : String → Bool)
    (guessType : String → Option String)
    (m title device url url_title : String) (priority : Int)
    (sound : String) (timestamp : Rat) (retry expire : Int) :
    Message.mk' existsFile guessType (some m) title "" device url
        url_title priority sound timestamp retry expire =
      Except.ok ⟨strTake m 4096, strTake title 250, "", none, device,
        strTake url 512, strTake url_title 100, priority, sound,
        timestamp, retry, expire⟩ ∧
    PRIORITIES.contains 99 = false ∧
    SOUNDS.contains "not-a-sound" = false := by
  refine ⟨?_, rfl, rfl⟩
  simp [Message.mk']

/-- C9: for every integer `percent`, in range or not, `Glance`
construction succeeds and stores `count` and `percent` unchanged: the
`ValueError` branch guarded by
`not isinstance(percent, int) and not 0 <= percent <= 100` is
unreachable once `percent` is an int. -/
theorem C9_percent_branch_unreachable (title text subtext : Option String)
    (c p : Int) :
    Glance.mk' title text subtext (.int c) (.int p) =
      Except.ok ⟨(match title with | some s => strTake s 100 | none => ""),
        (match text with | some s => strTake s 100 | none => ""),
        (match subtext with | some s => strTake s 100 | none => ""),
        .int c, .int p⟩ := by
  simp [Glance.mk', PyNum.isInt]

/-- C10: `Message` construction rejects only a literal `None` message;
every actual string is accepted, the empty string included, and a message
constructed from `""` serializes with no `"message"` key at all. -/
theorem C10_empty_message_accepted (existsFile : String → Bool)
    (guessType : String → Option String)
    (title device url url_title : String) (priority : Int)
    (sound : String) (timestamp : Rat) (retry expire : Int) :
    Message.mk' existsFile guessType none title "" device url url_title
        priority sound timestamp retry expire =
      Except.error (PyError.valueError "'message' cannot be None!") ∧
    (∀ m : String,
      Message.mk' existsFile guessType (some m) title "" device url
          url_title priority sound timestamp retry expire =
        Except.ok ⟨strTake m 4096, strTake title 250, "", none, device,
          strTake url 512, strTake url_title 100, priority, sound,
          timestamp, retry, expire⟩) ∧
    ((Message.json ⟨"", strTake title 250, "", none, device,
        strTake url 512, strTake url_title 100, priority, sound,
        timestamp, retry, expire⟩).map Prod.fst).contains "message" =
      false := by
  refine ⟨rfl, fun m => by simp [Message.mk'], ?_⟩
  have h : ∀ (msg : Message), msg.message = "" →
      ∀ kv ∈ msg.json, kv.1 ≠ "message" := by
    intro msg hmsg kv hmem
    obtain ⟨hm, hp⟩ := List.mem_filter.mp hmem
    fin_cases hm <;> simp_all [PyVal.neqEmptyStr]
  simp only [List.contains_eq_any_beq]
  rw [List.any_eq_false]
  intro k hk
  obtain ⟨kv, hkv, rfl⟩ := List.mem_map.mp hk
  simpa using (h _ rfl kv hkv).symm
